import Mathlib

namespace ATG

/-!
# Verification of the Agentic-Temporal-Graph pipeline and analytics

Shallow embedding, in Lean 4, of the per-document multi-agent pipeline
(`src/agents/*.py`) and of the three analytics engines
(`src/analytics/*.py`) of the Agentic-Temporal-Graph repository.

Python floats are modelled as exact rationals (`ℚ`); Python's decimal
rounding `round(x, 2)` is modelled by banker's rounding on rationals.
External collaborators (the Neo4j graph store, the LLM extraction and
bias services, the optional NLI cross-encoder) are modelled as explicit
function parameters, so every stage is a pure function of its inputs.
Wall-clock timestamps (`time.time()`) and string formatting of report
messages are not modelled; log entries keep their `agent`/`action`
fields only.
-/

/-! ## Python-style rounding on rationals

`round(x, 2)` in Python rounds half to even (banker's rounding).
`roundHalfEven q` is Python's `round(q)` for a rational `q`;
`pyRound2 q` is `round(q, 2)`. -/

/-- Python's `round(q)`: nearest integer, ties to the even integer. -/
def roundHalfEven (q : ℚ) : ℤ :=
  if q - ⌊q⌋ < 1/2 then ⌊q⌋
  else if q - ⌊q⌋ > 1/2 then ⌊q⌋ + 1
  else if ⌊q⌋ % 2 = 0 then ⌊q⌋ else ⌊q⌋ + 1

/-- Python's `round(q, 2)`. -/
def pyRound2 (q : ℚ) : ℚ := (roundHalfEven (100 * q) : ℚ) / 100

/-! ## Shared pipeline data model (`src/agents/state.py`)

Claims are dictionaries in Python; the keys the pipeline stages read or
write become structure fields.  Keys that a stage may only add later
(`similar_claims`, `contradictions`, `verification`) default to the
value that makes Python's `dict.get` fall back behave identically
(an empty list / `none`). -/

/-- A claim row returned by `Neo4jClient.find_similar_claims`; the
cross-reference agent reads its `id`, `text` and (optional) `status`.
A missing `status` key is modelled as `none`. -/
structure SimilarClaim where
  id : String
  text : String
  status : Option String
deriving Repr, DecidableEq

/-- An entry of a claim's `contradictions` list as built by
`CrossReferenceAgent._detect_contradictions`. -/
structure ContraEntry where
  claim_id : String
  text : String
  confidence : ℚ
  reason : String
deriving Repr, DecidableEq

/-- A claim dictionary as built by `AnalyzerAgent._create_claim` and
mutated by the cross-reference and bias stages. -/
structure DClaim where
  id : String
  text : String
  context : String := ""
  stance : String := "NEUTRAL"
  confidence : ℚ
  about_entities : List String := []
  about_events : List String := []
  source_id : String := ""
  source_url : String := ""
  /-- `claim.get('mentioned_entities', [])` in the graph builder; no
  stage ever writes this key, so it is always empty. -/
  mentioned_entities : List String := []
  similar_claims : List SimilarClaim := []
  contradictions : List ContraEntry := []
  verification_status : Option String := none
deriving Repr, DecidableEq

/-- Substring occurrence on character lists. -/
def containsSub (pat : List Char) : List Char → Bool
  | [] => pat.isPrefixOf []
  | c :: t => pat.isPrefixOf (c :: t) || containsSub pat t

/-- Substring test: Python's `pat in s` for a non-empty `pat`. -/
def strIn (pat s : String) : Bool := containsSub pat.data s.data

/-- Python's `str.lower()` (the texts involved are ASCII; `Char.toLower`
lowers exactly the ASCII range). -/
def pyLower (s : String) : String := String.mk (s.data.map Char.toLower)

/-- Whitespace splitter: groups of non-whitespace characters. -/
def splitWsAux : List Char → List Char → List (List Char)
  | [], acc => if acc = [] then [] else [acc.reverse]
  | c :: t, acc =>
    if c.isWhitespace then
      (if acc = [] then [] else [acc.reverse]) ++ splitWsAux t []
    else splitWsAux t (c :: acc)

/-- Python's `str.split()` (split on whitespace runs, no empty parts). -/
def pyWords (s : String) : List String :=
  (splitWsAux s.data []).map String.mk

/-! ## `CrossReferenceAgent` (`src/agents/cross_reference.py`) -/

/-- The negation-word list of `CrossReferenceAgent._are_contradictory`. -/
def negationWords : List String :=
  ["not", "no", "never", "cannot", "isn\x27t", "aren\x27t", "won\x27t"]

/-- `CrossReferenceAgent._are_contradictory` on already-lowercased texts. -/
def areContradictory (text1 text2 : String) : Bool :=
  let hasNeg1 := negationWords.any (fun neg => strIn neg text1)
  let hasNeg2 := negationWords.any (fun neg => strIn neg text2)
  if hasNeg1 ≠ hasNeg2 then
    let words1 := (pyWords text1).dedup
    let words2 := (pyWords text2).dedup
    let overlap := words1.filter (fun w => w ∈ words2)
    overlap.length > 3
  else
    false

/-- `CrossReferenceAgent._detect_contradictions`. -/
def detectContradictionsXRef (currentClaim : DClaim) (similarClaims : List SimilarClaim) :
    List ContraEntry :=
  let currentText := pyLower currentClaim.text
  (similarClaims.filter (fun s => areContradictory currentText (pyLower s.text))).map
    (fun s => { claim_id := s.id, text := s.text, confidence := 7/10,
                reason := "semantic_contradiction" })

/-- `CrossReferenceAgent._calculate_confidence`: boost by 0.2 (capped at
1.0) when a similar claim with status `VERIFIED` exists, subtract
0.15 per detected contradiction (floored at 0.0) when contradictions
exist, then round to two decimals. -/
def calculateConfidence (claim : DClaim) (similarClaims : List SimilarClaim)
    (contradictions : List ContraEntry) : ℚ :=
  let baseConfidence := claim.confidence
  let afterBoost :=
    if (similarClaims.filter (fun c => c.status = some "VERIFIED")) ≠ [] then
      min 1 (baseConfidence + 2/10)
    else baseConfidence
  let afterPenalty :=
    if contradictions ≠ [] then
      max 0 (afterBoost - (contradictions.length : ℚ) * 15/100)
    else afterBoost
  pyRound2 afterPenalty

/-! ## `BiasDetectorAgent` (`src/agents/bias_detector.py`) -/

/-- The result of `BiasDetectorAgent._analyze_bias` (the fields the
confidence adjustment reads). -/
structure BiasAnalysis where
  overall_bias_score : ℚ
deriving Repr, DecidableEq

/-- The result of `BiasDetectorAgent._verify_claim` (the fields the
confidence adjustment reads). -/
structure Verification where
  status : String
  support_ratio : ℚ
deriving Repr, DecidableEq

/-- `BiasDetectorAgent._adjust_confidence`: subtract
`overall_bias_score * 0.2`, add 0.1 if `SUPPORTED`, subtract 0.2 if
`UNSUPPORTED`, round to two decimals, clamp to `[0, 1]`. -/
def adjustConfidence (originalConfidence : ℚ) (biasAnalysis : BiasAnalysis)
    (verification : Verification) : ℚ :=
  let c1 := originalConfidence - biasAnalysis.overall_bias_score * 2/10
  let c2 :=
    if verification.status = "SUPPORTED" then c1 + 1/10
    else if verification.status = "UNSUPPORTED" then c1 - 2/10
    else c1
  max 0 (min 1 (pyRound2 c2))

/-! ## Pipeline state and stages (`src/agents/*.py`)

`AgentState` keeps the fields the claims depend on; `sentiment`,
`bias_score`, `credibility_score`, the state-level `similar_claims` /
`contradictions` lists, `metadata` and `processing_time` (never read by
any routing or persistence decision) are not modelled, and log entries
keep their `agent` and `action` fields (the numeric extras and
`time.time()` stamps are not).  A missing or empty string field of the
raw Kafka dictionary is modelled as `""` — both are falsy for the
`raw.get(...)` checks the code performs. -/

/-- The `source` sub-dictionary of the raw document (`none` models a
missing or empty dict, which is falsy in `if state.get('source'):`). -/
structure SourceInfo where
  url : String := ""
  source_name : String := ""
  source_type : String := ""
deriving Repr, DecidableEq

/-- The raw article/post dictionary from Kafka, plus the `full_text`
and `word_count` keys the collector writes into it. -/
structure RawData where
  id : String := ""
  title : String := ""
  content : String := ""
  full_content : String := ""
  author : String := ""
  url : String := ""
  published_at : Option String := none
  source : Option SourceInfo := none
  full_text : Option String := none
  word_count : Option ℕ := none
deriving Repr, DecidableEq

/-- An entity dictionary as built by `AnalyzerAgent._create_entity`. -/
structure DEntity where
  id : String
  name : String
  etype : String
  confidence : ℚ
  context : String
  mentions : ℕ
  source_id : String
deriving Repr, DecidableEq

/-- An event dictionary as built by `AnalyzerAgent._create_event`. -/
structure DEvent where
  id : String
  description : String
  etype : String
  timestamp : Option String
  location : Option String
  participants : List String
  confidence : ℚ
  source_id : String
deriving Repr, DecidableEq

/-- A processing-log entry (`agent` and `action` fields). -/
structure LogEntry where
  agent : String
  action : String
deriving Repr, DecidableEq

/-- A graph operation recorded by the GraphBuilder (the free-form
`properties` dictionary is not modelled). -/
structure GraphOperation where
  operation_type : String
  node_type : String
  node_id : String
deriving Repr, DecidableEq

/-- The shared `AgentState` threaded through the pipeline. -/
structure AgentState where
  raw_data : RawData
  raw_text : String
  source : Option SourceInfo
  entities : List DEntity
  events : List DEvent
  claims : List DClaim
  graph_operations : List GraphOperation
  processing_log : List LogEntry
  processed_by : List String
  errors : List String
  next_agent : Option String
  should_alert : Bool
deriving Repr, DecidableEq

/-- `create_initial_state`. -/
def createInitialState (raw : RawData) : AgentState :=
  { raw_data := raw, raw_text := "", source := raw.source, entities := [],
    events := [], claims := [], graph_operations := [], processing_log := [],
    processed_by := [], errors := [], next_agent := none, should_alert := false }

/-- `CollectorAgent._prepare_text`: title, then content (falling back
to `full_content`), then the author line, joined by blank lines. -/
def prepareText (raw : RawData) : String :=
  let parts : List String :=
    (if raw.title ≠ "" then [raw.title] else []) ++
    (if raw.content ≠ "" then [raw.content]
     else if raw.full_content ≠ "" then [raw.full_content] else []) ++
    (if raw.author ≠ "" then ["Author: " ++ raw.author] else [])
  String.intercalate "\n\n" parts

/-- `CollectorAgent.process`: fails (recording the error and clearing
`next_agent`, per the caught `ValueError`) exactly when content and
title are both empty/missing; otherwise writes `full_text` and
`word_count` into the raw data and routes to the Analyzer. -/
def collectorProcess (s : AgentState) : AgentState :=
  if s.raw_data.content = "" ∧ s.raw_data.title = "" then
    { s with errors := s.errors ++ ["CollectorAgent: No content or title found"],
             next_agent := none }
  else
    let fullText := prepareText s.raw_data
    let raw' := { s.raw_data with
                  full_text := some fullText
                  word_count := some (pyWords fullText).length }
    { s with
      raw_data := raw'
      processed_by := s.processed_by ++ ["CollectorAgent"]
      next_agent := some "AnalyzerAgent" }

/-- An entity of the extraction service's JSON response. -/
structure ExtractedEntity where
  name : String
  etype : String
  context : String := ""
deriving Repr, DecidableEq

/-- An event of the extraction service's JSON response. -/
structure ExtractedEvent where
  description : String
  etype : String
  timestamp : Option String := none
  location : Option String := none
deriving Repr, DecidableEq

/-- A claim of the extraction service's JSON response (`confidence`
falls back to 0.7 via `.get`). -/
structure ExtractedClaim where
  text : String
  context : String := ""
  confidence : Option ℚ := none
deriving Repr, DecidableEq

/-- The structured extraction response; `_analyze_with_llm` returns the
empty dictionary on failure, modelled as `none`. -/
structure ExtractionResult where
  entities : List ExtractedEntity := []
  events : List ExtractedEvent := []
  claims : List ExtractedClaim := []
deriving Repr, DecidableEq

/-- `AnalyzerAgent._create_entity` (`genId` models the md5-prefix
`_generate_id`). -/
def createEntity (genId : String → String) (e : ExtractedEntity) (src : RawData) : DEntity :=
  { id := genId (e.name ++ "_" ++ e.etype), name := e.name, etype := e.etype,
    confidence := 8/10, context := e.context, mentions := 1, source_id := src.id }

/-- `AnalyzerAgent._create_event`. -/
def createEvent (genId : String → String) (ev : ExtractedEvent) (src : RawData) : DEvent :=
  { id := genId (ev.description.take 100), description := ev.description,
    etype := ev.etype,
    timestamp := match ev.timestamp with
      | some t => if t ≠ "" then some t else src.published_at
      | none => src.published_at,
    location := ev.location, participants := [], confidence := 75/100,
    source_id := src.id }

/-- `AnalyzerAgent._create_claim`. -/
def createClaim (genId : String → String) (c : ExtractedClaim) (src : RawData) : DClaim :=
  { id := genId c.text, text := c.text, context := c.context, stance := "NEUTRAL",
    confidence := c.confidence.getD (7/10), about_entities := [], about_events := [],
    source_id := src.id, source_url := src.url }

/-- `AnalyzerAgent.process`: skip (straight to the GraphBuilder, with
no `processed_by` entry) when the full text is missing or shorter than
50 characters; otherwise truncate to 4000 characters, call the
extraction service, append whatever it returned, and route on whether
any claims exist so far. -/
def analyzerProcess (llm : String → Option ExtractionResult) (genId : String → String)
    (s : AgentState) : AgentState :=
  let fullText := s.raw_data.full_text.getD ""
  if fullText = "" ∨ fullText.length < 50 then
    { s with next_agent := some "GraphBuilderAgent" }
  else
    let truncated := if fullText.length > 4000 then fullText.take 4000 ++ "..." else fullText
    let s' :=
      match llm truncated with
      | some analysis =>
        { s with
          entities := s.entities ++ analysis.entities.map (fun e => createEntity genId e s.raw_data),
          events := s.events ++ analysis.events.map (fun ev => createEvent genId ev s.raw_data),
          claims := s.claims ++ analysis.claims.map (fun c => createClaim genId c s.raw_data) }
      | none => s
    { s' with
      processed_by := s'.processed_by ++ ["AnalyzerAgent"],
      next_agent := some (if s'.claims ≠ [] then "CrossReferenceAgent" else "GraphBuilderAgent") }

/-- `CrossReferenceAgent.process` (`findSimilar` models the Neo4j
`find_similar_claims` query, already including its error fallback to
`[]`). -/
def crossRefProcess (findSimilar : String → List SimilarClaim) (s : AgentState) : AgentState :=
  let claims' := s.claims.map (fun claim =>
    let similar := findSimilar claim.text
    let claim := { claim with similar_claims := similar }
    if similar ≠ [] then
      let contradictions := detectContradictionsXRef claim similar
      let claim := { claim with contradictions := contradictions }
      { claim with confidence := calculateConfidence claim similar contradictions }
    else claim)
  { s with claims := claims',
           processing_log := s.processing_log ++
             [{ agent := "CrossReferenceAgent", action := "cross_referenced" }],
           next_agent := some (if claims'.any (fun c => c.contradictions ≠ []) then
             "BiasDetectorAgent" else "GraphBuilderAgent") }

/-- The `BIAS_INDICATORS` pattern table of the bias detector. -/
def biasIndicators : List (String × List String) :=
  [("loaded_language",
    ["radical", "extreme", "dangerous", "shocking", "outrageous",
     "devastating", "slam", "destroy", "demolish"]),
   ("absolute_terms",
    ["always", "never", "all", "none", "every", "completely",
     "totally", "absolutely", "entirely"]),
   ("emotional_appeals",
    ["feel", "believe", "fear", "hope", "worry", "concerned",
     "alarmed", "excited", "angry"])]

/-- The pattern score of `BiasDetectorAgent._detect_bias_patterns`. -/
def detectBiasPatternsScore (text : String) : ℚ :=
  let textLower := pyLower text
  let totalIndicators := (biasIndicators.map
    (fun cat => (cat.2.filter (fun ind => strIn ind textLower)).length)).sum
  let wordCount := (pyWords text).length
  let biasRatio : ℚ := (totalIndicators : ℚ) / (max wordCount 1 : ℕ)
  min 1 (biasRatio * 100)

/-- The fields of the LLM bias response the agent reads (`bias_score`
falls back to 0.5 via `.get`; the exception path yields the same). -/
structure BiasLLM where
  bias_score : Option ℚ := none
deriving Repr, DecidableEq

/-- `BiasDetectorAgent._analyze_bias`: mean of the pattern score and
the LLM score, rounded to two decimals (only the overall score is
modelled). -/
def analyzeBias (llmBias : String → Option BiasLLM) (text : String) : BiasAnalysis :=
  let patternsScore := detectBiasPatternsScore text
  let llmScore := match llmBias text with
    | some r => r.bias_score.getD (1/2)
    | none => 1/2
  { overall_bias_score := pyRound2 ((patternsScore + llmScore) / 2) }

/-- `BiasDetectorAgent._verify_claim`: distinct-word overlap ratio of
the claim text against the article text, thresholds 0.7 / 0.4. -/
def verifyClaim (claim : DClaim) (context : String) : Verification :=
  let claimWords := (pyWords (pyLower claim.text)).dedup
  let contextWords := (pyWords (pyLower context)).dedup
  let overlap := claimWords.filter (fun w => w ∈ contextWords)
  let supportRatio : ℚ :=
    if claimWords ≠ [] then (overlap.length : ℚ) / (claimWords.length : ℚ) else 0
  { status := if supportRatio > 7/10 then "SUPPORTED"
      else if supportRatio > 4/10 then "PARTIALLY_SUPPORTED" else "UNSUPPORTED",
    support_ratio := pyRound2 supportRatio }

/-- `BiasDetectorAgent.process`. -/
def biasDetectorProcess (llmBias : String → Option BiasLLM) (s : AgentState) : AgentState :=
  let biasAnalysis := analyzeBias llmBias s.raw_text
  let claims' := s.claims.map (fun claim =>
    let verification := verifyClaim claim s.raw_text
    { claim with verification_status := some verification.status,
                 confidence := adjustConfidence claim.confidence biasAnalysis verification })
  { s with claims := claims',
           processing_log := s.processing_log ++
             [{ agent := "BiasDetectorAgent", action := "analyzed_bias" }],
           next_agent := some "GraphBuilderAgent" }

/-- `GraphBuilderAgent.process`: records the operation list (assigned,
not appended), logs, and marks the state `COMPLETE`.  The Neo4j writes
themselves are external, caught-and-logged calls. -/
def graphBuilderProcess (s : AgentState) : AgentState :=
  let sourceOps : List GraphOperation :=
    match s.source with
    | some src => [{ operation_type := "CREATE", node_type := "Source", node_id := src.url }]
    | none => []
  let entityOps := s.entities.map (fun e =>
    ({ operation_type := "CREATE", node_type := "Entity", node_id := e.id } : GraphOperation))
  let claimOps := (s.claims.map (fun claim =>
    ({ operation_type := "CREATE", node_type := "Claim", node_id := claim.id } : GraphOperation) ::
    (claim.mentioned_entities.map (fun ent =>
      ({ operation_type := "LINK", node_type := "Claim->Entity",
         node_id := claim.id ++ "->" ++ ent } : GraphOperation)) ++
     claim.contradictions.map (fun con =>
      ({ operation_type := "LINK", node_type := "Claim->Claim",
         node_id := claim.id ++ "->" ++ con.claim_id } : GraphOperation))))).flatten
  let eventOps := s.events.map (fun ev =>
    ({ operation_type := "CREATE", node_type := "Event", node_id := ev.id } : GraphOperation))
  { s with graph_operations := sourceOps ++ entityOps ++ claimOps ++ eventOps,
           processing_log := s.processing_log ++
             [{ agent := "GraphBuilderAgent", action := "updated_graph" }],
           next_agent := some "COMPLETE" }

/-- `MultiAgentOrchestrator._route_from_analyzer`. -/
def routeFromAnalyzer (s : AgentState) : String :=
  if s.claims ≠ [] then "cross_reference" else "graph_builder"

/-- `MultiAgentOrchestrator._route_from_cross_reference`. -/
def routeFromCrossReference (s : AgentState) : String :=
  if s.claims.any (fun claim => claim.contradictions ≠ []) then "bias_detector"
  else "graph_builder"

/-- The compiled LangGraph of `MultiAgentOrchestrator._build_graph`:
entry point `collector`, an *unconditional* edge `collector → analyzer`,
conditional edges after `analyzer` and `cross_reference`, then
`bias_detector → graph_builder → END`.  Returns the final state and the
ordered list of executed nodes. -/
def runPipeline (llm : String → Option ExtractionResult) (genId : String → String)
    (findSimilar : String → List SimilarClaim) (llmBias : String → Option BiasLLM)
    (s0 : AgentState) : AgentState × List String :=
  let s1 := collectorProcess s0
  let s2 := analyzerProcess llm genId s1
  if routeFromAnalyzer s2 = "cross_reference" then
    let s3 := crossRefProcess findSimilar s2
    if routeFromCrossReference s3 = "bias_detector" then
      let s4 := biasDetectorProcess llmBias s3
      (graphBuilderProcess s4,
       ["collector", "analyzer", "cross_reference", "bias_detector", "graph_builder"])
    else
      (graphBuilderProcess s3, ["collector", "analyzer", "cross_reference", "graph_builder"])
  else
    (graphBuilderProcess s2, ["collector", "analyzer", "graph_builder"])

/-! ## `CredibilityScorer` (`src/analytics/credibility_scorer.py`)

`_get_source_data` aggregates, from the graph store, the claim counts
and mean confidence for one source over the time window; it returns
data only when `total_claims > 0`.  The aggregate row is modelled as
`SourceData`; the cross-invocation cache `self.source_cache` (used only
for the trend direction) is modelled as an optional previous overall
score passed in explicitly. -/

/-- The aggregate row `_get_source_data` returns for a source. -/
structure SourceData where
  total_claims : ℕ
  contradicted_claims : ℕ
  cross_validated_claims : ℕ
  avg_confidence : ℚ
deriving Repr, DecidableEq

/-- The fields of the `SourceCredibility` dataclass that the scoring
logic computes (the string-formatted strengths/weaknesses report lines
and the wall-clock `last_updated` stamp are not modelled). -/
structure SourceCredibility where
  source_name : String
  overall_score : ℚ
  accuracy_score : ℚ
  consistency_score : ℚ
  bias_score : ℚ
  reliability_score : ℚ
  total_claims : ℕ
  contradicted_claims : ℕ
  cross_validated_claims : ℕ
  average_confidence : ℚ
  score_trend : String
deriving Repr, DecidableEq

/-- `CredibilityScorer._calculate_accuracy`. -/
def calculateAccuracy (d : SourceData) : ℚ :=
  if d.total_claims = 0 then 50
  else
    let validationRate := (d.cross_validated_claims : ℚ) / (d.total_claims : ℚ)
    let baseScore := validationRate * 100
    let contradictionPenalty := min ((d.contradicted_claims : ℚ) * 5) 30
    min (max (baseScore - contradictionPenalty) 0) 100

/-- `CredibilityScorer._calculate_consistency`. -/
def calculateConsistency (d : SourceData) : ℚ :=
  if d.total_claims = 0 then 50
  else
    let contradictionRate := (d.contradicted_claims : ℚ) / (d.total_claims : ℚ)
    let baseScore := (1 - contradictionRate) * 100
    let confidenceBonus : ℚ := if d.avg_confidence > 8/10 then 10 else 0
    min (baseScore + confidenceBonus) 100

/-- `CredibilityScorer._calculate_bias` (higher = less biased). -/
def calculateBias (d : SourceData) : ℚ :=
  if d.total_claims = 0 then 50
  else
    let validationRate := (d.cross_validated_claims : ℚ) / (d.total_claims : ℚ)
    min (50 + validationRate * 50) 100

/-- `CredibilityScorer._calculate_reliability`. -/
def calculateReliability (d : SourceData) : ℚ :=
  let volumeScore : ℚ :=
    if d.total_claims < 10 then 50 + (d.total_claims : ℚ) * 25/10
    else if d.total_claims < 50 then 75 + ((d.total_claims : ℚ) - 10) * 375/1000
    else 90 + min (((d.total_claims : ℚ) - 50) * 1/10) 10
  let confidenceScore := d.avg_confidence * 100
  min (volumeScore * 6/10 + confidenceScore * 4/10) 100

/-- `CredibilityScorer._determine_trend`: compares the current (not yet
rounded) overall score with the cached previous score, when one exists. -/
def determineTrend (previousScore : Option ℚ) (currentScore : ℚ) : String :=
  match previousScore with
  | some prev =>
      if currentScore - prev > 5 then "improving"
      else if currentScore - prev < -5 then "declining"
      else "stable"
  | none => "stable"

/-- `CredibilityScorer.score_source` on a source for which
`_get_source_data` returned data (at least one claim in the window). -/
def scoreSource (sourceName : String) (d : SourceData) (previousScore : Option ℚ) :
    SourceCredibility :=
  let accuracyScore := calculateAccuracy d
  let consistencyScore := calculateConsistency d
  let biasScore := calculateBias d
  let reliabilityScore := calculateReliability d
  let overallScore :=
    accuracyScore * 40/100 + consistencyScore * 25/100 +
    biasScore * 20/100 + reliabilityScore * 15/100
  { source_name := sourceName
    overall_score := pyRound2 overallScore
    accuracy_score := pyRound2 accuracyScore
    consistency_score := pyRound2 consistencyScore
    bias_score := pyRound2 biasScore
    reliability_score := pyRound2 reliabilityScore
    total_claims := d.total_claims
    contradicted_claims := d.contradicted_claims
    cross_validated_claims := d.cross_validated_claims
    average_confidence := d.avg_confidence
    score_trend := determineTrend previousScore overallScore }

/-- `CredibilityScorer._create_default_score` for a source with no data. -/
def createDefaultScore (sourceName : String) : SourceCredibility :=
  { source_name := sourceName
    overall_score := 50, accuracy_score := 50, consistency_score := 50
    bias_score := 50, reliability_score := 50
    total_claims := 0, contradicted_claims := 0, cross_validated_claims := 0
    average_confidence := 0, score_trend := "stable" }

/-! ## `TemporalAnalyzer` (`src/analytics/temporal_analyzer.py`) -/

/-- `TemporalAnalyzer._classify_trend`: classify an entity's aggregate
by mention count and its confidence sample series.  Python indexes
`confidences[0]` / `confidences[-1]` only behind the `len >= 5` guard;
the Lean defaults (`headD 0` / `getLastD 0`) are unreachable there. -/
def classifyTrend (mentionCount : ℕ) (confidences : List ℚ) : String :=
  if mentionCount ≥ 10 then "increasing_mentions"
  else if mentionCount ≤ 2 then "declining"
  else if confidences.length ≥ 5 ∧ confidences.getLastD 0 < confidences.headD 0 - 2/10 then
    "decreasing_confidence"
  else "emerging"

/-- `TemporalAnalyzer._analyze_confidence_trend`: compare the mean of
the first half of the series with the mean of the second half. -/
def analyzeConfidenceTrend (confidences : List ℚ) : String :=
  if confidences.length < 2 then "stable"
  else
    let firstHalf := confidences.take (confidences.length / 2)
    let secondHalf := confidences.drop (confidences.length / 2)
    let avgFirst := firstHalf.sum / (firstHalf.length : ℚ)
    let avgSecond := secondHalf.sum / (secondHalf.length : ℚ)
    if avgSecond - avgFirst > 1/10 then "increasing"
    else if avgSecond - avgFirst < -(1/10) then "decreasing"
    else "stable"

/-! ## `ContradictionDetector` (`src/analytics/contradiction_detector.py`)

`_detect_numerical_contradiction` extracts numeric tokens with the
regular expression `\b\d+(?:,\d\x7b3\x7d)*(?:\.\d+)?\b` and compares every
cross pair.  The extraction below implements that pattern's leftmost,
non-overlapping matching with its backtracking over the optional
thousands groups and decimal part (shortening `\d+` itself can never
satisfy the trailing `\b`, so digit runs are always maximal).  -/

/-- A regex word character (`\w`), deciding `\b` boundaries. -/
def isWordChar (c : Char) : Bool := c.isAlphanum || c = '_'

/-- Split off the maximal leading digit run. -/
def spanDigits : List Char → List Char × List Char
  | [] => ([], [])
  | c :: cs =>
    if c.isDigit then
      let (d, r) := spanDigits cs
      (c :: d, r)
    else ([], c :: cs)

/-- Greedy match of `(?:,\d\x7b3\x7d)*`: the maximal run of
comma-plus-three-digit groups. -/
def matchCommaGroups : List Char → List (List Char)
  | ',' :: d1 :: d2 :: d3 :: rest =>
    if d1.isDigit && d2.isDigit && d3.isDigit then
      [d1, d2, d3] :: matchCommaGroups rest
    else []
  | _ => []

/-- `\b` holds after the match: end of input or a non-word character. -/
def atBoundary : List Char → Bool
  | [] => true
  | c :: _ => !(isWordChar c)

/-- Decimal digit list to a natural number. -/
def digitsToNat (ds : List Char) : ℕ :=
  ds.foldl (fun acc c => 10 * acc + (c.toNat - 48)) 0

/-- The float value of a matched token: integer digits (commas already
removed) plus an optional fractional digit run, as in
`float(n.replace(',', ''))`. -/
def numValue (intDigits fracDigits : List Char) : ℚ :=
  mkRat (Int.ofNat (digitsToNat intDigits)) 1 +
    mkRat (Int.ofNat (digitsToNat fracDigits)) (Nat.pow 10 fracDigits.length)

/-- The optional `(?:\.\d+)?` part: a dot, a non-empty (maximal) digit
run, then `\b`. -/
def tryDecimal (intDigits : List Char) : List Char → Option (ℚ × List Char)
  | '.' :: r3 =>
    match spanDigits r3 with
    | (f, r4) => if f ≠ [] ∧ atBoundary r4 then some (numValue intDigits f, r4) else none
  | _ => none

/-- After the integer part, try the optional `(?:\.\d+)?` (preferred,
as the regex is greedy) and then the bare form, each followed by `\b`. -/
def tryDecimalThenBare (intDigits r2 : List Char) : Option (ℚ × List Char) :=
  match tryDecimal intDigits r2 with
  | some v => some v
  | none => if atBoundary r2 then some (numValue intDigits [], r2) else none

/-- Backtracking over the thousands groups, from the maximal run down
to zero groups (the argument is the reversed list of groups still
kept).  `d` is the integer digit run, `r1` what follows it. -/
def tryGroupsRev (d r1 : List Char) : List (List Char) → Option (ℚ × List Char)
  | [] => tryDecimalThenBare d r1
  | g :: rest =>
    match tryDecimalThenBare (d ++ ((g :: rest).reverse.flatten))
        (r1.drop (4 * (g :: rest).length)) with
    | some v => some v
    | none => tryGroupsRev d r1 rest

/-- Try to match the whole numeric pattern at the current position
(whose `\b` on the left the scanner has already checked).  Returns the
value and the remaining input on success. -/
def tryMatch (l : List Char) : Option (ℚ × List Char) :=
  let (d, r1) := spanDigits l
  if d = [] then none
  else tryGroupsRev d r1 (matchCommaGroups r1).reverse

/-- Left-to-right scan for non-overlapping matches, as `re.findall`
does.  `prevIsWord` tracks whether the previous character was a word
character (for the leading `\b`); the fuel is the input length, which
always suffices since every step consumes at least one character. -/
def scanNumbers : ℕ → List Char → Bool → List ℚ
  | 0, _, _ => []
  | _ + 1, [], _ => []
  | fuel + 1, c :: cs, prevIsWord =>
    if c.isDigit && !prevIsWord then
      match tryMatch (c :: cs) with
      | some (q, rest) => q :: scanNumbers fuel rest true
      | none => scanNumbers fuel cs (isWordChar c)
    else scanNumbers fuel cs (isWordChar c)

/-- All numeric tokens of a text, in order:
`re.findall(r'\b\d+(?:,\d\x7b3\x7d)*(?:\.\d+)?\b', text)` converted to
numbers. -/
def extractNumbers (text : String) : List ℚ :=
  scanNumbers text.length text.data false

/-- Python's builtin `max` on two numbers. -/
def pyMax (a b : ℚ) : ℚ := if a ≤ b then b else a

/-- Python's builtin `abs`. -/
def pyAbs (a : ℚ) : ℚ := if a < 0 then -a else a

/-- The inner guard of `_detect_numerical_contradiction`:
`n1 != n2 and abs(n1 - n2) / max(n1, n2) > 0.2`.  Python's `and`
short-circuits, so the quotient is evaluated only when `n1 ≠ n2`. -/
def significantDiff (n1 n2 : ℚ) : Bool :=
  if n1 ≠ n2 then pyAbs (n1 - n2) / pyMax n1 n2 > 2/10 else false

/-- The nested `for n1 in nums1: for n2 in nums2:` search for the first
significantly differing cross pair. -/
def findDiscrepantPair (nums1 nums2 : List ℚ) : Option (ℚ × ℚ) :=
  nums1.findSome? (fun n1 =>
    (nums2.find? (fun n2 => significantDiff n1 n2)).map (fun n2 => (n1, n2)))

/-- `ContradictionDetector._detect_numerical_contradiction`: fixed
score 0.8 and the discrepant pair (the content of the formatted
explanation `Numerical discrepancy: n1 vs n2`). -/
def detectNumericalContradiction (text1 text2 : String) : Option (ℚ × (ℚ × ℚ)) :=
  let numbers1 := extractNumbers text1
  let numbers2 := extractNumbers text2
  if numbers1 = [] ∨ numbers2 = [] then none
  else (findDiscrepantPair numbers1 numbers2).map (fun p => (8/10, p))

/-- The `before_after_pairs` keyword list of
`_detect_temporal_contradiction`. -/
def beforeAfterPairs : List (String × String) :=
  [("before", "after"), ("earlier", "later"), ("first", "last"),
   ("previous", "next"), ("past", "future")]

/-- `ContradictionDetector._detect_temporal_contradiction`: fixed score
0.75 when opposite-direction markers appear cross-wise. -/
def detectTemporalContradiction (text1 text2 : String) : Option (ℚ × (String × String)) :=
  let t1 := pyLower text1
  let t2 := pyLower text2
  beforeAfterPairs.findSome? (fun p =>
    if strIn p.1 t1 && strIn p.2 t2 then some (75/100, (p.1, p.2))
    else if strIn p.2 t1 && strIn p.1 t2 then some (75/100, (p.2, p.1))
    else none)

/-- The `negation_indicators` list of `_detect_factual_contradiction`. -/
def negationIndicators : List (String × String) :=
  [("is", "is not"), ("was", "was not"), ("has", "has not"), ("did", "did not"),
   ("will", "will not"), ("can", "cannot"), ("confirmed", "denied"),
   ("approved", "rejected"), ("agreed", "disagreed"), ("yes", "no"),
   ("true", "false")]

/-- `ContradictionDetector._detect_factual_contradiction`: fixed score
0.7 when paired polarity markers appear cross-wise. -/
def detectFactualContradiction (text1 text2 : String) : Option (ℚ × (String × String)) :=
  let t1 := pyLower text1
  let t2 := pyLower text2
  negationIndicators.findSome? (fun p =>
    if strIn p.1 t1 && strIn p.2 t2 then some (7/10, (p.1, p.2))
    else if strIn p.2 t1 && strIn p.1 t2 then some (7/10, (p.2, p.1))
    else none)

/-- A claim row as `_get_claims` returns it from the graph store. -/
structure GraphClaim where
  id : String
  text : String
  confidence : ℚ
  timestamp : String
  entities : List String
deriving Repr, DecidableEq

/-- The first claim of the spec's numerical-contradiction scenario. -/
def inflationClaimA : GraphClaim :=
  { id := "claim-a", text := "Inflation rose to 5%", confidence := 9/10,
    timestamp := "2026-01-01", entities := ["Inflation"] }

/-- The second claim of the spec's numerical-contradiction scenario. -/
def inflationClaimB : GraphClaim :=
  { id := "claim-b", text := "Inflation rose to 9%", confidence := 9/10,
    timestamp := "2026-01-02", entities := ["Inflation"] }

/-- The data content of a detection method's formatted explanation
message (float/string formatting itself is not modelled). -/
inductive Explanation where
  | numerical (n1 n2 : ℚ)
  | temporal (w1 w2 : String)
  | factual (w1 w2 : String)
deriving Repr, DecidableEq

/-- The `Contradiction` dataclass (wall-clock `detected_at` and the
fixed `"Neo4j"` source placeholders are not modelled). -/
structure Contradiction where
  claim1_id : String
  claim1_text : String
  claim1_confidence : ℚ
  claim2_id : String
  claim2_text : String
  claim2_confidence : ℚ
  contradiction_score : ℚ
  contradiction_type : String
  entities_involved : List String
  severity : String
  explanation : Option Explanation
deriving Repr, DecidableEq

/-- The severity rule of `ContradictionDetector._create_contradiction`. -/
def severityFor (score avgConfidence : ℚ) : String :=
  if score > 9/10 ∧ avgConfidence > 8/10 then "critical"
  else if score > 8/10 ∨ avgConfidence > 7/10 then "high"
  else if score > 7/10 then "medium"
  else "low"

/-- `ContradictionDetector._create_contradiction`. -/
def createContradiction (claim1 claim2 : GraphClaim) (score : ℚ)
    (contradictionType : String) (entities : List String) : Contradiction :=
  { claim1_id := claim1.id, claim1_text := claim1.text,
    claim1_confidence := claim1.confidence,
    claim2_id := claim2.id, claim2_text := claim2.text,
    claim2_confidence := claim2.confidence,
    contradiction_score := score, contradiction_type := contradictionType,
    entities_involved := entities,
    severity := severityFor score ((claim1.confidence + claim2.confidence) / 2),
    explanation := none }

/-- The optional NLI cross-encoder (`self.model`): `none` is the
heuristic-only variant; `some f` yields the contradiction probability
`f text1 text2`. -/
def nliScoreOf (model : Option (String → String → ℚ)) (t1 t2 : String) : ℚ :=
  match model with
  | some f => f t1 t2
  | none => 0

/-- Methods 2–4 of `ContradictionDetector._analyze_claim_pair`
(numerical, then temporal, then factual), in priority order,
short-circuiting on the first hit. -/
def heuristicMethods (claim1 claim2 : GraphClaim) (commonEntities : List String) :
    Option Contradiction :=
  match detectNumericalContradiction claim1.text claim2.text with
  | some sn =>
    some { createContradiction claim1 claim2 sn.1 "numerical" commonEntities with
           explanation := some (.numerical sn.2.1 sn.2.2) }
  | none =>
    match detectTemporalContradiction claim1.text claim2.text with
    | some st =>
      some { createContradiction claim1 claim2 st.1 "temporal" commonEntities with
             explanation := some (.temporal st.2.1 st.2.2) }
    | none =>
      match detectFactualContradiction claim1.text claim2.text with
      | some sf =>
        some { createContradiction claim1 claim2 sf.1 "factual" commonEntities with
               explanation := some (.factual sf.2.1 sf.2.2) }
      | none => none

/-- `ContradictionDetector._analyze_claim_pair`: the NLI method first
(when the model is loaded, accepted only above 0.7), then the three
heuristic methods. -/
def analyzeClaimPair (model : Option (String → String → ℚ))
    (claim1 claim2 : GraphClaim) (commonEntities : List String) :
    Option Contradiction :=
  if claim1.id = claim2.id then none
  else
    match model with
    | some f =>
      if f claim1.text claim2.text > 7/10 then
        some (createContradiction claim1 claim2 (f claim1.text claim2.text)
          "semantic" commonEntities)
      else heuristicMethods claim1 claim2 commonEntities
    | none => heuristicMethods claim1 claim2 commonEntities

/-- Equality of detection outcomes in type, score and severity (the
relation claim C8 asserts between the two argument orders). -/
def sameOutcome : Option Contradiction → Option Contradiction → Prop
  | none, none => True
  | some a, some b =>
      a.contradiction_type = b.contradiction_type ∧
      a.contradiction_score = b.contradiction_score ∧
      a.severity = b.severity
  | _, _ => False

/-- The confidence formula the amended claim C6 describes: the +0.2
verified boost (capped at 1.0) and the −0.15-per-contradiction penalty
(floored at 0.0) are applied *cumulatively* — the penalty is not an
`otherwise` branch — and the result is rounded to two decimals. -/
def amendedCrossRefConfidence (baseConfidence : ℚ) (hasVerifiedSimilar : Bool)
    (numContradictions : ℕ) : ℚ :=
  let boosted := if hasVerifiedSimilar then min 1 (baseConfidence + 2/10) else baseConfidence
  let penalized :=
    if numContradictions = 0 then boosted
    else max 0 (boosted - (numContradictions : ℚ) * 15/100)
  pyRound2 penalized

/-! ## Properties

Rounding lemmas, nonnegativity of the extracted numeric tokens,
symmetry of the pairwise detection, concrete evaluations, and the
theorems for the individual claims. -/

theorem floor_le_roundHalfEven (q : ℚ) : ⌊q⌋ ≤ roundHalfEven q := by
  unfold roundHalfEven
  split_ifs <;> omega

theorem roundHalfEven_le_floor_add_one (q : ℚ) : roundHalfEven q ≤ ⌊q⌋ + 1 := by
  unfold roundHalfEven
  split_ifs <;> omega

theorem abs_roundHalfEven_sub_le (q : ℚ) : |(roundHalfEven q : ℚ) - q| ≤ 1/2 := by
  have hfl : (⌊q⌋ : ℚ) ≤ q := Int.floor_le q
  have hfu : q < ⌊q⌋ + 1 := Int.lt_floor_add_one q
  unfold roundHalfEven
  split_ifs with h1 h2 h3
  · rw [abs_sub_comm, abs_of_nonneg (by linarith)]
    linarith
  · push_neg at h1
    rw [abs_of_nonneg (by push_cast; linarith)]
    push_cast
    linarith
  · push_neg at h1
    have h2' : q - ⌊q⌋ = 1/2 := le_antisymm (not_lt.mp h2) h1
    rw [abs_sub_comm, abs_of_nonneg (by linarith)]
    linarith
  · push_neg at h1
    have h2' : q - ⌊q⌋ = 1/2 := le_antisymm (not_lt.mp h2) h1
    rw [abs_of_nonneg (by push_cast; linarith)]
    push_cast
    linarith

theorem roundHalfEven_nonneg {q : ℚ} (h : 0 ≤ q) : 0 ≤ roundHalfEven q := by
  have := floor_le_roundHalfEven q
  have : (0 : ℤ) ≤ ⌊q⌋ := Int.floor_nonneg.mpr h
  omega

theorem roundHalfEven_le_of_le {q c : ℚ} (hc : ∃ n : ℤ, (n : ℚ) = c) (h : q ≤ c) :
    (roundHalfEven q : ℚ) ≤ c := by
  obtain ⟨n, rfl⟩ := hc
  have h1 : roundHalfEven q ≤ ⌊q⌋ + 1 := roundHalfEven_le_floor_add_one q
  have h2 : (⌊q⌋ : ℚ) ≤ q := Int.floor_le q
  by_cases hq : q = n
  · subst hq
    have : ⌊(n : ℚ)⌋ = n := Int.floor_intCast n
    unfold roundHalfEven
    rw [this]
    have : ((n : ℚ)) - n = 0 := by ring
    simp [this]
  · have hlt : q < n := lt_of_le_of_ne h hq
    have : ⌊q⌋ < n := by
      by_contra hcon
      push_neg at hcon
      have : (n : ℚ) ≤ ⌊q⌋ := by exact_mod_cast hcon
      linarith
    have : roundHalfEven q ≤ n := by omega
    exact_mod_cast this

theorem pyRound2_nonneg {q : ℚ} (h : 0 ≤ q) : 0 ≤ pyRound2 q := by
  unfold pyRound2
  have h0 : (0 : ℤ) ≤ roundHalfEven (100 * q) := roundHalfEven_nonneg (by linarith)
  positivity

theorem pyRound2_le_one {q : ℚ} (h : q ≤ 1) : pyRound2 q ≤ 1 := by
  unfold pyRound2
  have h0 : (roundHalfEven (100 * q) : ℚ) ≤ 100 :=
    roundHalfEven_le_of_le ⟨100, by norm_num⟩ (by linarith)
  linarith

theorem abs_pyRound2_sub_le (q : ℚ) : |pyRound2 q - q| ≤ 1/200 := by
  unfold pyRound2
  have h := abs_roundHalfEven_sub_le (100 * q)
  have : (roundHalfEven (100 * q) : ℚ) / 100 - q = ((roundHalfEven (100 * q) : ℚ) - 100 * q) / 100 := by
    ring
  rw [this, abs_div, abs_of_pos (by norm_num : (0:ℚ) < 100)]
  linarith

theorem pyMax_eq_max (a b : ℚ) : pyMax a b = max a b := by
  unfold pyMax
  split_ifs with h
  · exact (max_eq_right h).symm
  · exact (max_eq_left (le_of_not_le h)).symm

theorem pyAbs_eq_abs (a : ℚ) : pyAbs a = |a| := by
  unfold pyAbs
  split_ifs with h
  · exact (abs_of_neg h).symm
  · exact (abs_of_nonneg (le_of_not_lt h)).symm

/-- C1: for every claim whose confidence starts in `[0,1]`, both
confidence-adjustment steps (`CrossReferenceAgent._calculate_confidence`
and `BiasDetectorAgent._adjust_confidence`) return a value still in
`[0,1]`, for all inputs — any list of similar claims, any number of
detected contradictions, any bias score and verification status. -/
theorem C1_confidence_clamped (claim : DClaim) (similar : List SimilarClaim)
    (contradictions : List ContraEntry) (bias : BiasAnalysis) (verification : Verification)
    (h0 : 0 ≤ claim.confidence) (h1 : claim.confidence ≤ 1) :
    (0 ≤ calculateConfidence claim similar contradictions ∧
      calculateConfidence claim similar contradictions ≤ 1) ∧
    (0 ≤ adjustConfidence claim.confidence bias verification ∧
      adjustConfidence claim.confidence bias verification ≤ 1) := by
  constructor
  · unfold calculateConfidence
    have hk : (0 : ℚ) ≤ (contradictions.length : ℚ) * 15/100 := by positivity
    split_ifs with hv hc hc
    · exact ⟨pyRound2_nonneg (le_max_left _ _),
        pyRound2_le_one (max_le (by norm_num)
          (by linarith [min_le_left (1:ℚ) (claim.confidence + 2/10)]))⟩
    · exact ⟨pyRound2_nonneg (le_min (by norm_num) (by linarith)),
        pyRound2_le_one (min_le_left _ _)⟩
    · exact ⟨pyRound2_nonneg (le_max_left _ _),
        pyRound2_le_one (max_le (by norm_num) (by linarith))⟩
    · exact ⟨pyRound2_nonneg h0, pyRound2_le_one h1⟩
  · unfold adjustConfidence
    refine ⟨le_max_left _ _, max_le (by norm_num) (min_le_left _ _)⟩

/-- Witness for C1 at an extreme input: starting confidence 0, ten
detected contradictions, maximal bias score, `UNSUPPORTED` verdict. -/
theorem C1_confidence_clamped_witness :
    (0 : ℚ) ≤ 0 ∧ (0 : ℚ) ≤ 1 ∧
    ((0 ≤ calculateConfidence { id := "c", text := "t", confidence := 0 } []
          (List.replicate 10 { claim_id := "o", text := "s", confidence := 7/10,
                               reason := "semantic_contradiction" }) ∧
        calculateConfidence { id := "c", text := "t", confidence := 0 } []
          (List.replicate 10 { claim_id := "o", text := "s", confidence := 7/10,
                               reason := "semantic_contradiction" }) ≤ 1) ∧
      (0 ≤ adjustConfidence (0 : ℚ) { overall_bias_score := 1 } { status := "UNSUPPORTED", support_ratio := 0 } ∧
        adjustConfidence (0 : ℚ) { overall_bias_score := 1 } { status := "UNSUPPORTED", support_ratio := 0 } ≤ 1)) :=
  ⟨le_refl 0, by norm_num,
    C1_confidence_clamped { id := "c", text := "t", confidence := 0 } []
      (List.replicate 10 { claim_id := "o", text := "s", confidence := 7/10,
                           reason := "semantic_contradiction" })
      { overall_bias_score := 1 } { status := "UNSUPPORTED", support_ratio := 0 }
      (le_refl 0) (by norm_num)⟩

/-- C2: for every source with at least one claim in the window, the
overall credibility score equals the weighted sum
`0.40*accuracy + 0.25*consistency + 0.20*bias + 0.15*reliability` of
the four computed sub-scores up to the two-decimal rounding the code
performs (each of the five stored fields is rounded to two decimals,
so the discrepancy is at most 0.005 from rounding the overall score
plus at most 0.005 from the weighted sub-score roundings). -/
theorem C2_overall_weighted_sum (name : String) (d : SourceData) (prev : Option ℚ)
    (_h : 1 ≤ d.total_claims) :
    |(scoreSource name d prev).overall_score -
      ((scoreSource name d prev).accuracy_score * 40/100 +
       (scoreSource name d prev).consistency_score * 25/100 +
       (scoreSource name d prev).bias_score * 20/100 +
       (scoreSource name d prev).reliability_score * 15/100)| ≤ 1/100 := by
  show |pyRound2 (calculateAccuracy d * 40/100 + calculateConsistency d * 25/100 +
        calculateBias d * 20/100 + calculateReliability d * 15/100) -
      (pyRound2 (calculateAccuracy d) * 40/100 + pyRound2 (calculateConsistency d) * 25/100 +
       pyRound2 (calculateBias d) * 20/100 + pyRound2 (calculateReliability d) * 15/100)| ≤ 1/100
  have ha := abs_pyRound2_sub_le (calculateAccuracy d)
  have hc := abs_pyRound2_sub_le (calculateConsistency d)
  have hb := abs_pyRound2_sub_le (calculateBias d)
  have hr := abs_pyRound2_sub_le (calculateReliability d)
  have hs := abs_pyRound2_sub_le (calculateAccuracy d * 40/100 + calculateConsistency d * 25/100 +
    calculateBias d * 20/100 + calculateReliability d * 15/100)
  rw [abs_le] at ha hc hb hr hs ⊢
  obtain ⟨ha1, ha2⟩ := ha
  obtain ⟨hc1, hc2⟩ := hc
  obtain ⟨hb1, hb2⟩ := hb
  obtain ⟨hr1, hr2⟩ := hr
  obtain ⟨hs1, hs2⟩ := hs
  constructor <;> linarith

/-- Witness for C2 at the spec's scenario: 100 claims, 0 contradicted,
80 cross-validated, average confidence 0.85. -/
theorem C2_overall_weighted_sum_witness :
    1 ≤ (SourceData.mk 100 0 80 (85/100)).total_claims ∧
    |(scoreSource "Reuters" (SourceData.mk 100 0 80 (85/100)) none).overall_score -
      ((scoreSource "Reuters" (SourceData.mk 100 0 80 (85/100)) none).accuracy_score * 40/100 +
       (scoreSource "Reuters" (SourceData.mk 100 0 80 (85/100)) none).consistency_score * 25/100 +
       (scoreSource "Reuters" (SourceData.mk 100 0 80 (85/100)) none).bias_score * 20/100 +
       (scoreSource "Reuters" (SourceData.mk 100 0 80 (85/100)) none).reliability_score * 15/100)| ≤ 1/100 :=
  ⟨by norm_num,
    C2_overall_weighted_sum "Reuters" (SourceData.mk 100 0 80 (85/100)) none (by norm_num)⟩

/-- Counterexample to C6 as stated: when a `VERIFIED` similar claim
*and* a detected contradiction are both present, the code applies the
−0.15 penalty on top of the +0.2 boost (0.5 → 0.7 → 0.55), whereas the
claim's `otherwise` reading predicts 0.7. -/
theorem C6_counterexample :
    calculateConfidence { id := "c1", text := "GDP grew", confidence := 1/2 }
        [{ id := "c0", text := "GDP grew fast", status := some "VERIFIED" }]
        [{ claim_id := "c0", text := "GDP did not grow", confidence := 7/10,
           reason := "semantic_contradiction" }]
      = 11/20 ∧
    min 1 ((1:ℚ)/2 + 2/10) = 7/10 ∧ (11/20 : ℚ) ≠ 7/10 := by
  refine ⟨?_, by norm_num, by norm_num⟩
  simp only [calculateConfidence, List.filter, pyRound2, roundHalfEven]
  norm_num [min_def, max_def]

/-- Amended C6: `CrossReferenceAgent._calculate_confidence` adds 0.2
(capped at 1.0) when a similar `VERIFIED` claim exists and
*additionally* subtracts 0.15 per detected contradiction (floored at
0.0) when contradictions exist — both adjustments can apply to the same
claim — and rounds the result to two decimals. -/
theorem C6_amended (claim : DClaim) (similar : List SimilarClaim)
    (contradictions : List ContraEntry) :
    calculateConfidence claim similar contradictions =
      amendedCrossRefConfidence claim.confidence
        (decide (∃ s ∈ similar, s.status = some "VERIFIED"))
        contradictions.length := by
  unfold calculateConfidence amendedCrossRefConfidence
  have hfilter : ((similar.filter (fun c => c.status = some "VERIFIED")) ≠ []) ↔
      (∃ s ∈ similar, s.status = some "VERIFIED") := by
    rw [ne_eq, List.filter_eq_nil_iff]
    push_neg
    simp
  have hlen : (contradictions ≠ []) ↔ ¬(contradictions.length = 0) := by
    simp [List.length_eq_zero]
  by_cases hv : ∃ s ∈ similar, s.status = some "VERIFIED" <;>
    by_cases hc : contradictions = [] <;>
      simp [hfilter, hv, hc, hlen, List.length_eq_zero]

/-- Counterexample to C9 as stated: with 5 mentions and confidence
samples `[0.7, 0.7, 0.7, 0.7, 0.5]` the last sample is *exactly* 0.2
below the first — "at least 0.2 below" per the claim — yet the code's
strict comparison `confidences[-1] < confidences[0] - 0.2` fails and
the trend is classified `emerging`, not `decreasing_confidence`. -/
theorem C9_counterexample :
    classifyTrend 5 [7/10, 7/10, 7/10, 7/10, 1/2] = "emerging" ∧
    (2 < 5 ∧ 5 < 10 ∧ 5 ≤ [(7:ℚ)/10, 7/10, 7/10, 7/10, 1/2].length ∧
      (1/2 : ℚ) ≤ 7/10 - 2/10) ∧
    "emerging" ≠ "decreasing_confidence" := by
  refine ⟨?_, ⟨by norm_num, by norm_num, by simp, by norm_num⟩, by decide⟩
  simp only [classifyTrend]
  norm_num

/-- Amended C9: the trend classes, characterised without the priority
chain.  `decreasing_confidence` requires the last sample to be
*strictly more than* 0.2 below the first (the code compares with `<`,
so "exactly 0.2 below" classifies as `emerging`). -/
theorem C9_amended (n : ℕ) (cs : List ℚ) :
    (classifyTrend n cs = "increasing_mentions" ↔ 10 ≤ n) ∧
    (classifyTrend n cs = "declining" ↔ n < 10 ∧ n ≤ 2) ∧
    (classifyTrend n cs = "decreasing_confidence" ↔
      2 < n ∧ n < 10 ∧ 5 ≤ cs.length ∧ cs.getLastD 0 < cs.headD 0 - 2/10) ∧
    (classifyTrend n cs = "emerging" ↔
      2 < n ∧ n < 10 ∧ ¬(5 ≤ cs.length ∧ cs.getLastD 0 < cs.headD 0 - 2/10)) := by
  unfold classifyTrend
  split_ifs with h1 h2 h3
  · exact ⟨iff_of_true rfl h1,
      iff_of_false (by decide) (by omega),
      iff_of_false (by decide) (by omega),
      iff_of_false (by decide) (by omega)⟩
  · exact ⟨iff_of_false (by decide) (by omega),
      iff_of_true rfl ⟨by omega, h2⟩,
      iff_of_false (by decide) (by omega),
      iff_of_false (by decide) (by omega)⟩
  · exact ⟨iff_of_false (by decide) (by omega),
      iff_of_false (by decide) (by omega),
      iff_of_true rfl ⟨by omega, by omega, h3.1, h3.2⟩,
      iff_of_false (by decide) (fun h => h.2.2 h3)⟩
  · exact ⟨iff_of_false (by decide) (by omega),
      iff_of_false (by decide) (by omega),
      iff_of_false (by decide) (fun h => h3 ⟨h.2.2.1, h.2.2.2⟩),
      iff_of_true rfl ⟨by omega, by omega, h3⟩⟩

theorem numValue_nonneg (a b : List Char) : 0 ≤ numValue a b := by
  unfold numValue
  rw [Rat.mkRat_eq_div, Rat.mkRat_eq_div]
  have h1 : (0:ℤ) ≤ Int.ofNat (digitsToNat a) := Int.ofNat_nonneg _
  have h2 : (0:ℤ) ≤ Int.ofNat (digitsToNat b) := Int.ofNat_nonneg _
  apply add_nonneg <;> apply div_nonneg
  · exact_mod_cast h1
  · norm_num
  · exact_mod_cast h2
  · positivity

theorem tryDecimal_val_nonneg (d r2 : List Char) (q : ℚ) (rest : List Char)
    (h : tryDecimal d r2 = some (q, rest)) : 0 ≤ q := by
  unfold tryDecimal at h
  split at h
  · split at h
    split at h
    · injection h with h
      injection h with h1 h2
      subst h1
      exact numValue_nonneg _ _
    · simp at h
  · simp at h

theorem tryDecimalThenBare_val_nonneg (d r2 : List Char) (q : ℚ) (rest : List Char)
    (h : tryDecimalThenBare d r2 = some (q, rest)) : 0 ≤ q := by
  unfold tryDecimalThenBare at h
  split at h
  · next v heq =>
    injection h with h
    subst h
    exact tryDecimal_val_nonneg _ _ _ _ heq
  · split at h
    · injection h with h
      injection h with h1 h2
      subst h1
      exact numValue_nonneg _ _
    · simp at h

theorem tryGroupsRev_val_nonneg (d r1 : List Char) :
    ∀ (gs : List (List Char)) (q : ℚ) (rest : List Char),
      tryGroupsRev d r1 gs = some (q, rest) → 0 ≤ q := by
  intro gs
  induction gs with
  | nil =>
    intro q rest h
    exact tryDecimalThenBare_val_nonneg _ _ _ _ h
  | cons g rest ih =>
    intro q r h
    rw [tryGroupsRev] at h
    split at h
    · next heq =>
      injection h with h
      subst h
      exact tryDecimalThenBare_val_nonneg _ _ _ _ heq
    · exact ih _ _ h

theorem tryMatch_val_nonneg (l : List Char) (q : ℚ) (rest : List Char)
    (h : tryMatch l = some (q, rest)) : 0 ≤ q := by
  unfold tryMatch at h
  split at h
  simp at h
  exact tryGroupsRev_val_nonneg _ _ _ _ _ h.2

theorem scanNumbers_nonneg :
    ∀ (fuel : ℕ) (l : List Char) (prev : Bool), ∀ q ∈ scanNumbers fuel l prev, 0 ≤ q := by
  intro fuel
  induction fuel with
  | zero =>
    intro l prev q hq
    simp [scanNumbers] at hq
  | succ n ih =>
    intro l prev q hq
    match l with
    | [] => simp [scanNumbers] at hq
    | c :: cs =>
      rw [scanNumbers] at hq
      split at hq
      · split at hq
        · next p heq =>
          rcases List.mem_cons.mp hq with h | h
          · subst h
            exact tryMatch_val_nonneg _ _ _ heq
          · exact ih _ _ _ h
        · exact ih _ _ _ hq
      · exact ih _ _ _ hq

theorem extractNumbers_nonneg (t : String) : ∀ q ∈ extractNumbers t, 0 ≤ q :=
  scanNumbers_nonneg _ _ _

theorem significantDiff_comm (a b : ℚ) : significantDiff a b = significantDiff b a := by
  unfold significantDiff
  by_cases h : a = b
  · subst h
    simp
  · have habs : pyAbs (a - b) = pyAbs (b - a) := by
      rw [pyAbs_eq_abs, pyAbs_eq_abs, abs_sub_comm]
    have hmax : pyMax a b = pyMax b a := by
      rw [pyMax_eq_max, pyMax_eq_max, max_comm]
    rw [if_pos h, if_pos (Ne.symm h), habs, hmax]

theorem findDiscrepantPair_isSome_iff (ns1 ns2 : List ℚ) :
    (findDiscrepantPair ns1 ns2).isSome = true ↔
      ∃ n1 ∈ ns1, ∃ n2 ∈ ns2, significantDiff n1 n2 = true := by
  unfold findDiscrepantPair
  induction ns1 with
  | nil => simp
  | cons a t ih =>
    rw [List.findSome?_cons]
    cases hfind : List.find? (fun n2 => significantDiff a n2) ns2 with
    | none =>
      have hno : ∀ n2 ∈ ns2, ¬ significantDiff a n2 = true := by
        intro n2 hn2 hcon
        have := List.find?_eq_none.mp hfind n2 hn2
        simp [hcon] at this
      simp only [hfind, Option.map_none']
      rw [ih]
      constructor
      · rintro ⟨n1, hn1, n2, hn2, hs⟩
        exact ⟨n1, List.mem_cons_of_mem a hn1, n2, hn2, hs⟩
      · rintro ⟨n1, hn1, n2, hn2, hs⟩
        rcases List.mem_cons.mp hn1 with rfl | hn1
        · exact absurd hs (hno n2 hn2)
        · exact ⟨n1, hn1, n2, hn2, hs⟩
    | some b =>
      have hb2 : b ∈ ns2 := List.mem_of_find?_eq_some hfind
      have hbp : significantDiff a b = true := List.find?_some hfind
      simp only [hfind, Option.map_some']
      constructor
      · intro _
        exact ⟨a, List.mem_cons_self a t, b, hb2, hbp⟩
      · intro _
        rfl

theorem detectNumerical_isSome_comm (t1 t2 : String) :
    (detectNumericalContradiction t1 t2).isSome =
      (detectNumericalContradiction t2 t1).isSome := by
  unfold detectNumericalContradiction
  by_cases h1 : extractNumbers t1 = [] <;> by_cases h2 : extractNumbers t2 = []
  · simp [h1, h2]
  · simp [h1, h2]
  · simp [h1, h2]
  · rw [if_neg (by tauto), if_neg (by tauto), Option.isSome_map', Option.isSome_map']
    rw [Bool.eq_iff_iff, findDiscrepantPair_isSome_iff, findDiscrepantPair_isSome_iff]
    constructor
    · rintro ⟨n1, hn1, n2, hn2, hs⟩
      exact ⟨n2, hn2, n1, hn1, (significantDiff_comm n1 n2) ▸ hs⟩
    · rintro ⟨n1, hn1, n2, hn2, hs⟩
      exact ⟨n2, hn2, n1, hn1, (significantDiff_comm n1 n2) ▸ hs⟩

theorem detectNumerical_score (t1 t2 : String) (x : ℚ × (ℚ × ℚ))
    (h : detectNumericalContradiction t1 t2 = some x) : x.1 = 8/10 := by
  simp only [detectNumericalContradiction] at h
  split at h
  · simp at h
  · obtain ⟨p, _, rfl⟩ := Option.map_eq_some'.mp h
    rfl

theorem findSome?_isSome_congr {α β γ : Type} (f : α → Option β) (g : α → Option γ)
    (hfg : ∀ x, (f x).isSome = (g x).isSome) :
    ∀ l : List α, (l.findSome? f).isSome = (l.findSome? g).isSome := by
  intro l
  induction l with
  | nil => rfl
  | cons x t ih =>
    rw [List.findSome?_cons, List.findSome?_cons]
    cases hfx : f x with
    | some b =>
      have hx := hfg x
      rw [hfx] at hx
      cases hgx : g x with
      | some c => rfl
      | none =>
        rw [hgx] at hx
        simp at hx
    | none =>
      have hx := hfg x
      rw [hfx] at hx
      cases hgx : g x with
      | some c =>
        rw [hgx] at hx
        simp at hx
      | none => exact ih

theorem crosswise_isSome_comm (a b : String) (score : ℚ) :
    ∀ l : List (String × String),
      (l.findSome? (fun p =>
        if strIn p.1 a && strIn p.2 b then some (score, (p.1, p.2))
        else if strIn p.2 a && strIn p.1 b then some (score, (p.2, p.1))
        else none)).isSome =
      (l.findSome? (fun p =>
        if strIn p.1 b && strIn p.2 a then some (score, (p.1, p.2))
        else if strIn p.2 b && strIn p.1 a then some (score, (p.2, p.1))
        else none)).isSome := by
  apply findSome?_isSome_congr
  intro p
  cases h1 : strIn p.1 a <;> cases h2 : strIn p.2 a <;>
    cases h3 : strIn p.1 b <;> cases h4 : strIn p.2 b <;>
      simp [h1, h2, h3, h4]

theorem crosswise_fst (a b : String) (score : ℚ) (l : List (String × String))
    (x : ℚ × (String × String))
    (h : l.findSome? (fun p =>
        if strIn p.1 a && strIn p.2 b then some (score, (p.1, p.2))
        else if strIn p.2 a && strIn p.1 b then some (score, (p.2, p.1))
        else none) = some x) : x.1 = score := by
  obtain ⟨p, _, hp⟩ := List.exists_of_findSome?_eq_some h
  split at hp
  · injection hp with hp
    rw [← hp]
  · split at hp
    · injection hp with hp
      rw [← hp]
    · simp at hp

theorem detectTemporal_isSome_comm (t1 t2 : String) :
    (detectTemporalContradiction t1 t2).isSome =
      (detectTemporalContradiction t2 t1).isSome := by
  unfold detectTemporalContradiction
  exact crosswise_isSome_comm (pyLower t1) (pyLower t2) (75/100) beforeAfterPairs

theorem detectTemporal_score (t1 t2 : String) (x : ℚ × (String × String))
    (h : detectTemporalContradiction t1 t2 = some x) : x.1 = 75/100 := by
  unfold detectTemporalContradiction at h
  exact crosswise_fst _ _ _ _ _ h

theorem detectFactual_isSome_comm (t1 t2 : String) :
    (detectFactualContradiction t1 t2).isSome =
      (detectFactualContradiction t2 t1).isSome := by
  unfold detectFactualContradiction
  exact crosswise_isSome_comm (pyLower t1) (pyLower t2) (7/10) negationIndicators

theorem detectFactual_score (t1 t2 : String) (x : ℚ × (String × String))
    (h : detectFactualContradiction t1 t2 = some x) : x.1 = 7/10 := by
  unfold detectFactualContradiction at h
  exact crosswise_fst _ _ _ _ _ h

theorem numValue_digit5 : numValue ['5'] [] = 5 := by
  have h : digitsToNat ['5'] = 5 := by decide
  have h0 : digitsToNat ([] : List Char) = 0 := by decide
  rw [numValue, h, h0]
  norm_num [mkRat, Rat.normalize, Rat.maybeNormalize]

theorem numValue_digit9 : numValue ['9'] [] = 9 := by
  have h : digitsToNat ['9'] = 9 := by decide
  have h0 : digitsToNat ([] : List Char) = 0 := by decide
  rw [numValue, h, h0]
  norm_num [mkRat, Rat.normalize, Rat.maybeNormalize]

theorem numValue_digit0 : numValue ['0'] [] = 0 := by
  have h : digitsToNat ['0'] = 0 := by decide
  have h0 : digitsToNat ([] : List Char) = 0 := by decide
  rw [numValue, h, h0]
  norm_num [mkRat, Rat.normalize, Rat.maybeNormalize]

theorem extractNumbers_infl5 : extractNumbers "Inflation rose to 5%" = [5] := by
  rw [show extractNumbers "Inflation rose to 5%" = [numValue ['5'] []] from rfl,
    numValue_digit5]

theorem extractNumbers_infl9 : extractNumbers "Inflation rose to 9%" = [9] := by
  rw [show extractNumbers "Inflation rose to 9%" = [numValue ['9'] []] from rfl,
    numValue_digit9]

theorem extractNumbers_price5 : extractNumbers "Price was 5" = [5] := by
  rw [show extractNumbers "Price was 5" = [numValue ['5'] []] from rfl, numValue_digit5]

theorem extractNumbers_price0 : extractNumbers "Price was 0" = [0] := by
  rw [show extractNumbers "Price was 0" = [numValue ['0'] []] from rfl, numValue_digit0]

/-- C10: the numerical contradiction check never divides by zero: the
guard `significantDiff` evaluates the quotient only when the two values
differ, every numeric token the regex extraction yields is
non-negative, and therefore the divisor `max(n1, n2)` is strictly
positive whenever the division is reached — also when one of the texts
contains the token `0`. -/
theorem C10_no_division_by_zero (t1 t2 : String) :
    (∀ q ∈ extractNumbers t1, 0 ≤ q) ∧
    (∀ n : ℚ, significantDiff n n = false) ∧
    (∀ n1 ∈ extractNumbers t1, ∀ n2 ∈ extractNumbers t2,
      n1 ≠ n2 → 0 < pyMax n1 n2) := by
  refine ⟨extractNumbers_nonneg t1, ?_, ?_⟩
  · intro n
    simp [significantDiff]
  · intro n1 h1 n2 h2 hne
    have g1 : 0 ≤ n1 := extractNumbers_nonneg t1 n1 h1
    have g2 : 0 ≤ n2 := extractNumbers_nonneg t2 n2 h2
    rw [pyMax_eq_max]
    rcases lt_or_le 0 n1 with h | h
    · exact lt_max_of_lt_left h
    · have hn1 : n1 = 0 := le_antisymm h g1
      subst hn1
      have : 0 < n2 := lt_of_le_of_ne g2 hne
      exact lt_max_of_lt_right this

theorem significantDiff_5_9 : significantDiff 5 9 = true := by
  unfold significantDiff
  rw [if_pos (show (5:ℚ) ≠ 9 by norm_num)]
  simp only [pyAbs, pyMax]
  norm_num

theorem detectNumerical_inflation :
    detectNumericalContradiction "Inflation rose to 5%" "Inflation rose to 9%" =
      some (8/10, (5, 9)) := by
  simp only [detectNumericalContradiction, extractNumbers_infl5, extractNumbers_infl9]
  rw [if_neg (by simp)]
  simp [findDiscrepantPair, List.findSome?_cons, significantDiff_5_9]

theorem isSome_comm_none {α : Type} {o1 o2 : Option α}
    (h : o1.isSome = o2.isSome) (h1 : o1 = none) : o2 = none := by
  subst h1
  cases h2 : o2 with
  | none => rfl
  | some c =>
    rw [h2] at h
    simp at h

theorem heuristicMethods_symm (c1 c2 : GraphClaim) (common : List String) :
    sameOutcome (heuristicMethods c1 c2 common) (heuristicMethods c2 c1 common) := by
  unfold heuristicMethods
  have havg : c1.confidence + c2.confidence = c2.confidence + c1.confidence := add_comm _ _
  cases h12 : detectNumericalContradiction c1.text c2.text with
  | some sn =>
    have hs : (detectNumericalContradiction c2.text c1.text).isSome = true := by
      rw [← detectNumerical_isSome_comm, h12]
      rfl
    obtain ⟨sn', h21⟩ := Option.isSome_iff_exists.mp hs
    rw [h21]
    have e12 := detectNumerical_score _ _ _ h12
    have e21 := detectNumerical_score _ _ _ h21
    refine ⟨rfl, ?_, ?_⟩
    · show sn.1 = sn'.1
      rw [e12, e21]
    · show severityFor sn.1 ((c1.confidence + c2.confidence) / 2) =
        severityFor sn'.1 ((c2.confidence + c1.confidence) / 2)
      rw [e12, e21, havg]
  | none =>
    have h21 : detectNumericalContradiction c2.text c1.text = none :=
      isSome_comm_none (detectNumerical_isSome_comm c1.text c2.text) h12
    rw [h21]
    cases t12 : detectTemporalContradiction c1.text c2.text with
    | some st =>
      have hs : (detectTemporalContradiction c2.text c1.text).isSome = true := by
        rw [← detectTemporal_isSome_comm, t12]
        rfl
      obtain ⟨st', t21⟩ := Option.isSome_iff_exists.mp hs
      rw [t21]
      have e12 := detectTemporal_score _ _ _ t12
      have e21 := detectTemporal_score _ _ _ t21
      refine ⟨rfl, ?_, ?_⟩
      · show st.1 = st'.1
        rw [e12, e21]
      · show severityFor st.1 ((c1.confidence + c2.confidence) / 2) =
          severityFor st'.1 ((c2.confidence + c1.confidence) / 2)
        rw [e12, e21, havg]
    | none =>
      have t21 : detectTemporalContradiction c2.text c1.text = none :=
        isSome_comm_none (detectTemporal_isSome_comm c1.text c2.text) t12
      rw [t21]
      cases f12 : detectFactualContradiction c1.text c2.text with
      | some sf =>
        have hs : (detectFactualContradiction c2.text c1.text).isSome = true := by
          rw [← detectFactual_isSome_comm, f12]
          rfl
        obtain ⟨sf', f21⟩ := Option.isSome_iff_exists.mp hs
        rw [f21]
        have e12 := detectFactual_score _ _ _ f12
        have e21 := detectFactual_score _ _ _ f21
        refine ⟨rfl, ?_, ?_⟩
        · show sf.1 = sf'.1
          rw [e12, e21]
        · show severityFor sf.1 ((c1.confidence + c2.confidence) / 2) =
            severityFor sf'.1 ((c2.confidence + c1.confidence) / 2)
          rw [e12, e21, havg]
      | none =>
        have f21 : detectFactualContradiction c2.text c1.text = none :=
          isSome_comm_none (detectFactual_isSome_comm c1.text c2.text) f12
        rw [f21]
        trivial

/-- C8: contradiction detection is symmetric in the order of the two
claims — whenever the NLI collaborator (if present) is itself symmetric
on the pair, analyzing `(A, B)` and `(B, A)` yields either no
contradiction in both orders or contradictions of equal type, equal
score and equal severity. -/
theorem C8_detection_symmetric (m : Option (String → String → ℚ))
    (hm : ∀ t1 t2 : String, nliScoreOf m t1 t2 = nliScoreOf m t2 t1)
    (c1 c2 : GraphClaim) (common : List String) (_hcommon : common ≠ []) :
    sameOutcome (analyzeClaimPair m c1 c2 common) (analyzeClaimPair m c2 c1 common) := by
  unfold analyzeClaimPair
  by_cases hid : c1.id = c2.id
  · rw [if_pos hid, if_pos hid.symm]
    trivial
  · rw [if_neg hid, if_neg (fun h => hid h.symm)]
    cases m with
    | none => exact heuristicMethods_symm c1 c2 common
    | some f =>
      have hf : f c1.text c2.text = f c2.text c1.text := hm c1.text c2.text
      show sameOutcome
        (if f c1.text c2.text > 7/10 then
          some (createContradiction c1 c2 (f c1.text c2.text) "semantic" common)
         else heuristicMethods c1 c2 common)
        (if f c2.text c1.text > 7/10 then
          some (createContradiction c2 c1 (f c2.text c1.text) "semantic" common)
         else heuristicMethods c2 c1 common)
      by_cases hsem : f c1.text c2.text > 7/10
      · rw [if_pos hsem, if_pos (by rw [← hf]; exact hsem)]
        refine ⟨rfl, hf, ?_⟩
        show severityFor (f c1.text c2.text) ((c1.confidence + c2.confidence) / 2) =
          severityFor (f c2.text c1.text) ((c2.confidence + c1.confidence) / 2)
        rw [hf, add_comm c1.confidence c2.confidence]
      · rw [if_neg hsem, if_neg (by rw [← hf]; exact hsem)]
        exact heuristicMethods_symm c1 c2 common

/-- Witness for C8 at the inflation scenario, in the heuristic-only
variant (no NLI model, which is trivially symmetric). -/
theorem C8_detection_symmetric_witness :
    (∀ t1 t2 : String, nliScoreOf none t1 t2 = nliScoreOf none t2 t1) ∧
    (["Inflation"] : List String) ≠ [] ∧
    sameOutcome (analyzeClaimPair none inflationClaimA inflationClaimB ["Inflation"])
      (analyzeClaimPair none inflationClaimB inflationClaimA ["Inflation"]) :=
  ⟨fun _ _ => rfl, by simp,
    C8_detection_symmetric none (fun _ _ => rfl) inflationClaimA inflationClaimB
      ["Inflation"] (by simp)⟩

/-- C7: whenever the semantic (NLI) method does not fire and some cross
pair of numeric tokens of the two texts differs by more than 20 % of
the larger value, `_analyze_claim_pair` flags the pair as a
contradiction of type `numerical` with fixed score 0.8 and an
explanation; in particular the pair `Inflation rose to 5%` /
`Inflation rose to 9%` fires the numerical method. -/
theorem C7_numerical_method :
    (∀ (m : Option (String → String → ℚ)) (c1 c2 : GraphClaim) (common : List String),
      c1.id ≠ c2.id →
      (∀ f, m = some f → ¬(f c1.text c2.text > 7/10)) →
      (∃ n1 ∈ extractNumbers c1.text, ∃ n2 ∈ extractNumbers c2.text,
        n1 ≠ n2 ∧ |n1 - n2| / max n1 n2 > 2/10) →
      ∃ con, analyzeClaimPair m c1 c2 common = some con ∧
        con.contradiction_type = "numerical" ∧ con.contradiction_score = 8/10 ∧
        con.explanation ≠ none) ∧
    (analyzeClaimPair none inflationClaimA inflationClaimB ["Inflation"]).map
        (fun c => (c.contradiction_type, c.contradiction_score)) =
      some ("numerical", 8/10) := by
  constructor
  · intro m c1 c2 common hid hnli hnum
    have hheur : ∃ con, heuristicMethods c1 c2 common = some con ∧
        con.contradiction_type = "numerical" ∧ con.contradiction_score = 8/10 ∧
        con.explanation ≠ none := by
      obtain ⟨n1, h1, n2, h2, hne, hgt⟩ := hnum
      have hsome : (detectNumericalContradiction c1.text c2.text).isSome = true := by
        unfold detectNumericalContradiction
        rw [if_neg (by
          push_neg
          exact ⟨List.ne_nil_of_mem h1, List.ne_nil_of_mem h2⟩)]
        rw [Option.isSome_map', findDiscrepantPair_isSome_iff]
        refine ⟨n1, h1, n2, h2, ?_⟩
        unfold significantDiff
        rw [if_pos hne, pyAbs_eq_abs, pyMax_eq_max]
        exact decide_eq_true hgt
      obtain ⟨sn, hsn⟩ := Option.isSome_iff_exists.mp hsome
      unfold heuristicMethods
      rw [hsn]
      exact ⟨_, rfl, rfl, detectNumerical_score _ _ _ hsn, by simp⟩
    unfold analyzeClaimPair
    rw [if_neg hid]
    cases m with
    | none => exact hheur
    | some f =>
      have hno : ¬(f c1.text c2.text > 7/10) := hnli f rfl
      show ∃ con, (if f c1.text c2.text > 7/10 then
          some (createContradiction c1 c2 (f c1.text c2.text) "semantic" common)
        else heuristicMethods c1 c2 common) = some con ∧
        con.contradiction_type = "numerical" ∧ con.contradiction_score = 8/10 ∧
        con.explanation ≠ none
      rw [if_neg hno]
      exact hheur
  · unfold analyzeClaimPair
    rw [if_neg (by decide)]
    show Option.map (fun c => (c.contradiction_type, c.contradiction_score))
      (heuristicMethods inflationClaimA inflationClaimB ["Inflation"]) =
        some ("numerical", 8/10)
    unfold heuristicMethods
    simp only [inflationClaimA, inflationClaimB]
    rw [detectNumerical_inflation]
    rfl

/-- Witness for C7 at the inflation scenario: 5 and 9 differ by 4/9 of
the larger value, so the general statement applies and yields the
numerical contradiction. -/
theorem C7_numerical_method_witness :
    inflationClaimA.id ≠ inflationClaimB.id ∧
    (5:ℚ) ∈ extractNumbers inflationClaimA.text ∧
    (9:ℚ) ∈ extractNumbers inflationClaimB.text ∧
    (∃ con, analyzeClaimPair none inflationClaimA inflationClaimB ["Inflation"] = some con ∧
      con.contradiction_type = "numerical" ∧ con.contradiction_score = 8/10 ∧
      con.explanation ≠ none) := by
  have h5 : (5:ℚ) ∈ extractNumbers inflationClaimA.text := by
    show (5:ℚ) ∈ extractNumbers "Inflation rose to 5%"
    rw [extractNumbers_infl5]
    exact List.mem_singleton.mpr rfl
  have h9 : (9:ℚ) ∈ extractNumbers inflationClaimB.text := by
    show (9:ℚ) ∈ extractNumbers "Inflation rose to 9%"
    rw [extractNumbers_infl9]
    exact List.mem_singleton.mpr rfl
  have hratio : |(5:ℚ) - 9| / max (5:ℚ) 9 > 2/10 := by
    rw [show ((5:ℚ) - 9) = -4 by norm_num, abs_neg,
      abs_of_nonneg (by norm_num : (0:ℚ) ≤ 4),
      max_eq_right (by norm_num : (5:ℚ) ≤ 9)]
    norm_num
  exact ⟨by decide, h5, h9,
    C7_numerical_method.1 none inflationClaimA inflationClaimB ["Inflation"] (by decide)
      (fun f h => Option.noConfusion h) ⟨5, h5, 9, h9, by norm_num, hratio⟩⟩

/-- Witness for C10: the texts `Price was 5` and `Price was 0` — one of
them contributing the token `0` — still give a strictly positive
divisor. -/
theorem C10_no_division_by_zero_witness :
    (5:ℚ) ∈ extractNumbers "Price was 5" ∧ (0:ℚ) ∈ extractNumbers "Price was 0" ∧
    (5:ℚ) ≠ 0 ∧ 0 < pyMax (5:ℚ) 0 := by
  have h5 : (5:ℚ) ∈ extractNumbers "Price was 5" := by
    rw [extractNumbers_price5]
    exact List.mem_singleton.mpr rfl
  have h0 : (0:ℚ) ∈ extractNumbers "Price was 0" := by
    rw [extractNumbers_price0]
    exact List.mem_singleton.mpr rfl
  exact ⟨h5, h0, by norm_num,
    (C10_no_division_by_zero "Price was 5" "Price was 0").2.2 5 h5 0 h0 (by norm_num)⟩

/-- C3 (code bug): for a document whose title and content are both
empty, the Collector records the validation error in the state's error
list and clears `next_agent` (its source comments `# Stop workflow`),
but the orchestrator's *unconditional* `collector → analyzer` edge
still runs the Analyzer and then the GraphBuilder, and the run ends
with `next_agent = 'COMPLETE'` — there is no Failed terminal state and
further stages do run, contrary to the claim. -/
theorem C3_collector_failure_runs_all_stages :
    (runPipeline (fun _ => none) (fun s => s) (fun _ => []) (fun _ => none)
      (createInitialState { title := "", content := "" })).1.errors =
        ["CollectorAgent: No content or title found"] ∧
    (runPipeline (fun _ => none) (fun s => s) (fun _ => []) (fun _ => none)
      (createInitialState { title := "", content := "" })).1.next_agent =
        some "COMPLETE" ∧
    (runPipeline (fun _ => none) (fun s => s) (fun _ => []) (fun _ => none)
      (createInitialState { title := "", content := "" })).2 =
        ["collector", "analyzer", "graph_builder"] :=
  ⟨by decide, by decide, by decide⟩

/-- Counterexample to C4 as stated: for a document with a *non-empty*
title and empty content, the Collector does not fail at all — the
validation only fires when both fields are empty — so no error is
recorded and the state routes to the Analyzer. -/
theorem C4_counterexample :
    ("Breaking news" : String) ≠ "" ∧
    (collectorProcess (createInitialState { title := "Breaking news", content := "" })).errors
      = [] ∧
    (collectorProcess (createInitialState
      { title := "Breaking news", content := "" })).next_agent = some "AnalyzerAgent" :=
  ⟨by decide, by decide, rfl⟩

/-- Amended C4: a document with a non-empty title passes collection
regardless of its content — the Collector records no error and routes
to the Analyzer; it fails only when title and content are both
empty/missing. -/
theorem C4_amended (raw : RawData) (h : raw.title ≠ "") :
    (collectorProcess (createInitialState raw)).errors = [] ∧
    (collectorProcess (createInitialState raw)).next_agent = some "AnalyzerAgent" := by
  unfold collectorProcess createInitialState
  rw [if_neg (fun hc => h hc.2)]
  exact ⟨rfl, rfl⟩

/-- Witness for the amended C4 at the scenario's document. -/
theorem C4_amended_witness :
    ("Breaking news" : String) ≠ "" ∧
    ((collectorProcess (createInitialState
        { title := "Breaking news", content := "" })).errors = [] ∧
      (collectorProcess (createInitialState
        { title := "Breaking news", content := "" })).next_agent = some "AnalyzerAgent") :=
  ⟨by decide, C4_amended { title := "Breaking news", content := "" } (by decide)⟩

/-- C5: after the Analyzer runs, the orchestrator routes to
cross-referencing iff the claims list is non-empty; with no claims the
executed nodes are exactly collector, analyzer, graph_builder — the
cross-reference and bias-detector stages are both skipped. -/
theorem C5_analyzer_routing (llm : String → Option ExtractionResult)
    (genId : String → String) (findSimilar : String → List SimilarClaim)
    (llmBias : String → Option BiasLLM) (s0 : AgentState) :
    (routeFromAnalyzer (analyzerProcess llm genId (collectorProcess s0)) = "cross_reference" ↔
      (analyzerProcess llm genId (collectorProcess s0)).claims ≠ []) ∧
    ((analyzerProcess llm genId (collectorProcess s0)).claims = [] →
      (runPipeline llm genId findSimilar llmBias s0).2 =
        ["collector", "analyzer", "graph_builder"] ∧
      "cross_reference" ∉ (runPipeline llm genId findSimilar llmBias s0).2 ∧
      "bias_detector" ∉ (runPipeline llm genId findSimilar llmBias s0).2) ∧
    ((analyzerProcess llm genId (collectorProcess s0)).claims ≠ [] →
      "cross_reference" ∈ (runPipeline llm genId findSimilar llmBias s0).2) := by
  set s2 := analyzerProcess llm genId (collectorProcess s0) with hs2
  refine ⟨?_, ?_, ?_⟩
  · unfold routeFromAnalyzer
    by_cases h : s2.claims = []
    · rw [if_neg (not_not_intro h)]
      exact iff_of_false (by decide) (not_not_intro h)
    · rw [if_pos h]
      exact iff_of_true rfl h
  · intro h
    have hroute : routeFromAnalyzer s2 = "graph_builder" := by
      unfold routeFromAnalyzer
      rw [if_neg (not_not_intro h)]
    simp only [runPipeline]
    rw [← hs2, hroute, if_neg (by decide)]
    exact ⟨rfl, by simp, by simp⟩
  · intro h
    have hroute : routeFromAnalyzer s2 = "cross_reference" := by
      unfold routeFromAnalyzer
      rw [if_pos h]
    simp only [runPipeline]
    rw [← hs2, hroute, if_pos rfl]
    split
    · simp
    · simp

/-- Witness for C5: with an extraction service returning nothing, the
claims list stays empty and the trace is exactly the three nodes. -/
theorem C5_analyzer_routing_witness :
    (analyzerProcess (fun _ => none) (fun s => s) (collectorProcess (createInitialState
      { title := "Summit concluded",
        content := "World leaders gathered today to sign a historic agreement." }))).claims
      = [] ∧
    ((runPipeline (fun _ => none) (fun s => s) (fun _ => []) (fun _ => none)
        (createInitialState
          { title := "Summit concluded",
            content := "World leaders gathered today to sign a historic agreement." })).2 =
      ["collector", "analyzer", "graph_builder"] ∧
    "cross_reference" ∉ (runPipeline (fun _ => none) (fun s => s) (fun _ => []) (fun _ => none)
        (createInitialState
          { title := "Summit concluded",
            content := "World leaders gathered today to sign a historic agreement." })).2 ∧
    "bias_detector" ∉ (runPipeline (fun _ => none) (fun s => s) (fun _ => []) (fun _ => none)
        (createInitialState
          { title := "Summit concluded",
            content := "World leaders gathered today to sign a historic agreement." })).2) :=
  ⟨by decide,
    (C5_analyzer_routing (fun _ => none) (fun s => s) (fun _ => []) (fun _ => none)
      (createInitialState
        { title := "Summit concluded",
          content := "World leaders gathered today to sign a historic agreement." })).2.1
      (by decide)⟩

end ATG
